import Mathlib

/-!
Verification of the mOSm.cloud control plane core: billing/device-limit
enforcement (src/src/billing/enforce.ts), device pairing (devices/pair
endpoint), heartbeat handling (src/src/heartbeat/handler.ts), the service
registry health summary (mosm-heartbeat function), rollout orchestration
(src/services/rollouts/rolloutsService.js) and the event mirror
(src/netlify/functions/mosm-events.js).

The embedding is shallow: each JavaScript/TypeScript function becomes a
Lean function; the in-memory or database state it touches is passed and
returned explicitly; timestamps are passed in as arguments (the source
reads the ambient clock); database errors surface as `Except`.
-/

set_option autoImplicit false

namespace Mosm

/-! ## Billing enforcement (src/src/billing/enforce.ts) -/

/-- `ACTIVE_BILLING_STATUSES` from enforce.ts: statuses that allow device pairing. -/
def ACTIVE_BILLING_STATUSES : List String := ["paid", "trialing"]

/-- `BLOCKED_BILLING_STATUSES` from enforce.ts. -/
def BLOCKED_BILLING_STATUSES : List String := ["unpaid", "past_due", "canceled"]

/-- `max_devices: number | 'unlimited'` from the `Account` plan descriptor. -/
inductive MaxDevices where
  | limited (n : Nat)
  | unlimited
  deriving DecidableEq, Repr

/-- The `Account` shape used by enforce.ts and the pairing endpoint
(the pairing endpoint additionally reads `device_count`; enforce.ts leaves
`id` optional). -/
structure Account where
  id : Option String
  max_devices : MaxDevices
  billing_status : String
  device_count : Nat
  deriving Repr, DecidableEq

/-- The `Location` shape from enforce.ts (Phase F location-scoped enforcement). -/
structure Location where
  id : String
  organization_id : String
  name : String
  plan_tier : String
  device_limit : Nat
  active : Bool
  setup_fee_paid : Bool
  deriving Repr, DecidableEq

/-- `result: 'ALLOWED' | 'BLOCKED'` of an `EnforcementLog` entry. -/
inductive EnfResult where
  | ALLOWED
  | BLOCKED
  deriving DecidableEq, Repr

/-- An `EnforcementLog` entry. The constant `type: 'BILLING_ENFORCEMENT'`
field and the wall-clock `timestamp` that `logEnforcementEvent` stamps on
every entry are not modelled (they carry no decision content). -/
structure EnforcementLog where
  org_id : Option String
  location_id : Option String
  billing_status : String
  action : String
  result : EnfResult
  reason : Option String
  device_count : Option Nat
  max_devices : Option MaxDevices
  deriving Repr, DecidableEq

/-- `logEnforcementEvent`: appends one entry to the in-memory
`enforcementLogs` buffer (`enforcementLogs.push(entry)`). -/
def logEnforcementEvent (logs : List EnforcementLog) (entry : EnforcementLog) :
    List EnforcementLog :=
  logs ++ [entry]

/-- `isBillingActive` from enforce.ts. -/
def isBillingActive (billing_status : String) : Bool :=
  ACTIVE_BILLING_STATUSES.contains billing_status

/-- The structured result `{allowed, error?, code?, message?}` returned by
the enforcement gates. -/
structure PairingResult where
  allowed : Bool
  error : Option String
  code : Option String
  message : Option String
  deriving Repr, DecidableEq

/-- `enforceLocationPairing` from enforce.ts (Phase F): the four checks in
source order — account billing, location active, setup fee paid, device
limit — each branch writing one audit entry before returning. -/
def enforceLocationPairing (account : Account) (location : Location)
    (currentDeviceCount : Nat) (logs : List EnforcementLog) :
    PairingResult × List EnforcementLog :=
  if !isBillingActive account.billing_status then
    (⟨false, some "BILLING_INACTIVE", some "BILLING_INACTIVE",
       some "Active subscription required. Please visit /billing to activate."⟩,
     logEnforcementEvent logs
       ⟨account.id, some location.id, account.billing_status,
        "LOCATION_PAIR_DEVICE", .BLOCKED,
        some ("Account billing status \x27" ++ account.billing_status ++ "\x27 not active"),
        none, none⟩)
  else if !location.active then
    (⟨false, some "LOCATION_INACTIVE", some "LOCATION_INACTIVE",
       some ("Location \x27" ++ location.name ++ "\x27 is not active.")⟩,
     logEnforcementEvent logs
       ⟨account.id, some location.id, account.billing_status,
        "LOCATION_PAIR_DEVICE", .BLOCKED, some "Location is not active", none, none⟩)
  else if !location.setup_fee_paid then
    (⟨false, some "SETUP_FEE_NOT_PAID", some "SETUP_FEE_NOT_PAID",
       some ("Setup fee required for location \x27" ++ location.name ++
         "\x27. Please complete payment.")⟩,
     logEnforcementEvent logs
       ⟨account.id, some location.id, account.billing_status,
        "LOCATION_PAIR_DEVICE", .BLOCKED, some "Location setup fee not paid", none, none⟩)
  else if currentDeviceCount ≥ location.device_limit then
    (⟨false, some "DEVICE_LIMIT_REACHED", some "DEVICE_LIMIT_REACHED",
       some ("Location \x27" ++ location.name ++ "\x27 has reached its device limit (" ++
         toString location.device_limit ++ "). Upgrade plan or add another location.")⟩,
     logEnforcementEvent logs
       ⟨account.id, some location.id, account.billing_status,
        "LOCATION_PAIR_DEVICE", .BLOCKED,
        some ("Device limit reached: " ++ toString currentDeviceCount ++ "/" ++
          toString location.device_limit),
        some currentDeviceCount, some (.limited location.device_limit)⟩)
  else
    (⟨true, none, none, none⟩,
     logEnforcementEvent logs
       ⟨account.id, some location.id, account.billing_status,
        "LOCATION_PAIR_DEVICE", .ALLOWED, none,
        some currentDeviceCount, some (.limited location.device_limit)⟩)

/-- Modelled from the spec: the code of the first failing check in the
spec's fixed order billing → location-active → setup-fee → device-limit,
`none` when all checks pass.  Used to compare the source gate against the
spec's gate-ordering sentence. -/
def firstFailingCheckCode (account : Account) (location : Location)
    (currentDeviceCount : Nat) : Option String :=
  if !isBillingActive account.billing_status then some "BILLING_INACTIVE"
  else if !location.active then some "LOCATION_INACTIVE"
  else if !location.setup_fee_paid then some "SETUP_FEE_NOT_PAID"
  else if currentDeviceCount ≥ location.device_limit then some "DEVICE_LIMIT_REACHED"
  else none

/-- `enforceBillingForPairing` from enforce.ts: account-level billing gate,
logs one entry then returns a structured result. -/
def enforceBillingForPairing (account : Account) (logs : List EnforcementLog) :
    PairingResult × List EnforcementLog :=
  let isActive := isBillingActive account.billing_status
  let logs := logEnforcementEvent logs
    ⟨account.id, none, account.billing_status, "PAIR_DEVICE",
     if isActive then .ALLOWED else .BLOCKED,
     if isActive then none
     else some ("Billing status \x27" ++ account.billing_status ++ "\x27 not in allowed list"),
     none, none⟩
  if !isActive then
    (⟨false, some "BILLING_INACTIVE", some "BILLING_INACTIVE",
      some "Active subscription required to pair new devices. Please visit /billing to activate."⟩,
     logs)
  else
    (⟨true, none, none, none⟩, logs)

/-- `enforceDeviceLimit` from enforce.ts: logs, then throws (modelled as
`Except.error` carrying the thrown message) when the plan limit is
exceeded. -/
def enforceDeviceLimit (account : Account) (deviceCount : Nat)
    (logs : List EnforcementLog) : Except String Unit × List EnforcementLog :=
  match account.max_devices with
  | .unlimited =>
    (.ok (), logEnforcementEvent logs
      ⟨account.id, none, account.billing_status, "CHECK_DEVICE_LIMIT", .ALLOWED,
       some "Enterprise plan - unlimited devices", some deviceCount, some .unlimited⟩)
  | .limited maxDevices =>
    let allowed := deviceCount ≤ maxDevices
    let logs := logEnforcementEvent logs
      ⟨account.id, none, account.billing_status, "CHECK_DEVICE_LIMIT",
       if allowed then .ALLOWED else .BLOCKED,
       if allowed then none
       else some ("Limit " ++ toString maxDevices ++ ", attempting " ++ toString deviceCount),
       some deviceCount, some (.limited maxDevices)⟩
    if allowed then (.ok (), logs)
    else
      (.error ("Device limit exceeded. Plan allows " ++ toString maxDevices ++
        " devices, attempting to add device #" ++ toString deviceCount), logs)

/-! ## Device pairing endpoint (POST /api/devices/pair) -/

/-- The `DevicePairingRequest` shape from the pairing endpoint. -/
structure DevicePairingRequest where
  device_id : String
  account_id : String
  pairing_code : Option String
  device_name : Option String
  deriving Repr, DecidableEq

/-- `DevicePairingResponse`: the success/failure union returned by
`pairDevice` (`paired_at` is the ambient clock, passed in). -/
inductive DevicePairingResponse where
  | success (device_id : String) (account_id : String) (paired_at : String)
      (device_name : String)
  | failure (error : String) (code : String) (message : String)
      (billing_status : Option String) (help : Option String)
  deriving Repr, DecidableEq

/-- The failure code of a pairing response, `none` on success. -/
def DevicePairingResponse.code? : DevicePairingResponse → Option String
  | .success _ _ _ _ => none
  | .failure _ code _ _ _ => some code

/-- `pairDevice` from the pairing endpoint: billing gate, then device-limit
gate (catching the throw of `enforceDeviceLimit`), then pairing; the JS
default `device_name || Device <prefix>` treats the empty string as
missing. -/
def pairDevice (req : DevicePairingRequest) (account : Account) (nowIso : String)
    (logs : List EnforcementLog) : DevicePairingResponse × List EnforcementLog :=
  let bc := enforceBillingForPairing account logs
  let billingCheck := bc.1
  let logs := bc.2
  if !billingCheck.allowed then
    (.failure (billingCheck.error.getD "") (billingCheck.code.getD "")
      (billingCheck.message.getD "") (some account.billing_status)
      (some "Visit /billing to activate your subscription"), logs)
  else
    match enforceDeviceLimit account (account.device_count + 1) logs with
    | (.error limitError, logs) =>
      let logs := logEnforcementEvent logs
        ⟨account.id, none, account.billing_status, "PAIR_DEVICE", .BLOCKED,
         some limitError, some account.device_count, some account.max_devices⟩
      (.failure "DEVICE_LIMIT_EXCEEDED" "DEVICE_LIMIT_EXCEEDED" limitError
        (some account.billing_status)
        (some "Upgrade your plan at /billing to add more devices"), logs)
    | (.ok _, logs) =>
      let logs := logEnforcementEvent logs
        ⟨account.id, none, account.billing_status, "PAIR_DEVICE", .ALLOWED, none,
         some (account.device_count + 1), some account.max_devices⟩
      (.success req.device_id req.account_id nowIso
        (match req.device_name with
         | some n => if n.isEmpty then "Device " ++ req.device_id.take 8 else n
         | none => "Device " ++ req.device_id.take 8), logs)

/-! ## Heartbeat handler (src/src/heartbeat/handler.ts) -/

/-- `HeartbeatPayload` from handler.ts. -/
structure HeartbeatPayload where
  device_id : String
  status : String
  uptime : Nat
  current_board : Option String
  last_seen : String
  deriving Repr, DecidableEq

/-- The optional `accountInfo` argument of `handleHeartbeat`. -/
structure AccountInfo where
  billing_status : String
  plan : String
  device_count : Nat
  deriving Repr, DecidableEq

/-- A device command (`reload`/`switch_board`/`update`/`restart`); the
opaque payload record is not modelled. -/
structure Command where
  kind : String
  deriving Repr, DecidableEq

/-- `HeartbeatResponse` from handler.ts. -/
structure HeartbeatResponse where
  acknowledged : Bool
  server_time : String
  billing_status : Option String
  plan : Option String
  device_count : Option Nat
  commands : List Command
  deriving Repr, DecidableEq

/-- `Map.set` on the module-level `deviceLastSeen` map, modelled on an
association list: replace in place, or append when the key is new. -/
def deviceLastSeenSet (m : List (String × Nat)) (k : String) (v : Nat) :
    List (String × Nat) :=
  if m.any (fun p => p.1 = k) then m.map (fun p => if p.1 = k then (k, v) else p)
  else m ++ [(k, v)]

/-- `handleHeartbeat` from handler.ts: records the device as seen now,
collects pending commands (none are ever produced from billing), and
always acknowledges; the billing fields in the response are copied
verbatim from `accountInfo` as informational data. -/
def handleHeartbeat (payload : HeartbeatPayload) (accountInfo : Option AccountInfo)
    (nowIso : String) (now : Nat) (deviceLastSeen : List (String × Nat)) :
    HeartbeatResponse × List (String × Nat) :=
  let seen := deviceLastSeenSet deviceLastSeen payload.device_id now
  let commands : List Command := []
  (⟨true, nowIso, accountInfo.map (fun a => a.billing_status),
    accountInfo.map (fun a => a.plan), accountInfo.map (fun a => a.device_count),
    commands⟩, seen)

/-! ## Billing status resolver (Stripe webhook handler) -/

/-- The platform `BillingStatus` union from the webhook handler. -/
inductive BillingStatus where
  | unpaid
  | paid
  | past_due
  | canceled
  | trialing
  deriving DecidableEq, Repr

/-- `mapSubscriptionStatus` from the Stripe webhook handler: maps a
payment-provider subscription state (a string at runtime) to the platform
billing status, defaulting to `unpaid`. -/
def mapSubscriptionStatus (stripeStatus : String) : BillingStatus :=
  match stripeStatus with
  | "active" => .paid
  | "trialing" => .trialing
  | "past_due" => .past_due
  | "canceled" | "unpaid" | "incomplete" | "incomplete_expired" | "paused" => .unpaid
  | _ => .unpaid

/-! ## Service registry health summary (mosm-heartbeat function) -/

/-- `HEARTBEAT_TIMEOUT_MS` from the mosm-heartbeat function: 2 minutes. -/
def HEARTBEAT_TIMEOUT_MS : Int := 120000

/-- The `status` column of `service_registry`
(`online`/`degraded`/`offline`/`unknown`). -/
inductive ServiceStatus where
  | online
  | degraded
  | offline
  | unknown
  deriving DecidableEq, Repr

/-- One `service_registry` row as read by the health-summary handler;
`last_heartbeat` in epoch milliseconds. -/
structure RegistryEntry where
  service_id : String
  location_id : String
  status : ServiceStatus
  last_heartbeat : Int
  version : Option String
  deriving Repr, DecidableEq

/-- The per-entry effective status computed inside the GET /health loop:
`isStale = (now - lastHeartbeat) > HEARTBEAT_TIMEOUT_MS`;
`effectiveStatus = isStale ? 'offline' : service.status`. -/
def effectiveStatus (now : Int) (e : RegistryEntry) : ServiceStatus :=
  if now - e.last_heartbeat > HEARTBEAT_TIMEOUT_MS then .offline else e.status

/-- The top-level counters of the health summary object (the
`byService`/`byLocation` breakdowns bucket entries by the same effective
status and are not separately modelled). -/
structure HealthCounts where
  total : Nat
  online : Nat
  degraded : Nat
  offline : Nat
  unknown : Nat
  deriving Repr, DecidableEq

/-- The `summary[effectiveStatus]++` step of the health-summary loop. -/
def bumpStatusCount (c : HealthCounts) : ServiceStatus → HealthCounts
  | .online => { c with online := c.online + 1 }
  | .degraded => { c with degraded := c.degraded + 1 }
  | .offline => { c with offline := c.offline + 1 }
  | .unknown => { c with unknown := c.unknown + 1 }

/-- Projection of a counter field by status. -/
def HealthCounts.count (c : HealthCounts) : ServiceStatus → Nat
  | .online => c.online
  | .degraded => c.degraded
  | .offline => c.offline
  | .unknown => c.unknown

/-- The GET /health summary computation of the mosm-heartbeat function:
initialise `total = services.length` and zero counters, then bump one
counter per entry by its effective status. -/
def getHealthSummary (now : Int) (services : List RegistryEntry) : HealthCounts :=
  services.foldl (fun c e => bumpStatusCount c (effectiveStatus now e))
    ⟨services.length, 0, 0, 0, 0⟩

/-! ## Rollout orchestration (src/services/rollouts/rolloutsService.js)

The `rollouts` and `rollout_executions` tables are modelled as lists; the
Supabase builder calls become list operations: `.update(...).eq(...)`
maps over matching rows, `.select().single()` demands exactly one
returned row and otherwise raises the client error (`Except.error`), and
timestamps (`new Date().toISOString()`) are the `now` argument. -/

/-- `rollout_executions.status`. -/
inductive ExecStatus where
  | pending
  | in_progress
  | completed
  | failed
  deriving DecidableEq, Repr

/-- An execution status is terminal when it is `completed` or `failed`. -/
def ExecStatus.isTerminal (s : ExecStatus) : Bool :=
  s == .completed || s == .failed

/-- `rollouts.status`. -/
inductive RolloutStatus where
  | pending
  | scheduled
  | in_progress
  | completed
  | failed
  | rolled_back
  deriving DecidableEq, Repr

/-- A `rollouts` row (audit columns such as `created_by` are omitted;
`payload` is kept opaque). -/
structure Rollout where
  id : String
  name : String
  organization_id : String
  rollout_type : String
  target_locations : List String
  payload : String
  status : RolloutStatus
  scheduled_at : Option Nat
  started_at : Option Nat
  completed_at : Option Nat
  updated_at : Option Nat
  deriving Repr, DecidableEq

/-- A `rollout_executions` row. -/
structure RolloutExecution where
  rollout_id : String
  location_id : String
  status : ExecStatus
  started_at : Option Nat
  completed_at : Option Nat
  error_message : Option String
  deriving Repr, DecidableEq

/-- The two tables the rollouts service reads and writes. -/
structure RolloutStore where
  rollouts : List Rollout
  executions : List RolloutExecution
  deriving Repr, DecidableEq

/-- `createRollout`: inserts the rollout (`scheduled` when `scheduledAt`
is given, else `pending`) and, only when `targetLocations.length > 0`,
one `pending` execution row per target location. `newId` stands for the
database-generated row id. -/
def createRollout (store : RolloutStore) (name organizationId rolloutType : String)
    (targetLocations : List String) (payload : String) (scheduledAt : Option Nat)
    (newId : String) : RolloutStore × Rollout :=
  let r : Rollout :=
    { id := newId, name := name, organization_id := organizationId,
      rollout_type := rolloutType, target_locations := targetLocations,
      payload := payload,
      status := if scheduledAt.isSome then .scheduled else .pending,
      scheduled_at := scheduledAt, started_at := none, completed_at := none,
      updated_at := none }
  let executions :=
    if targetLocations.length > 0 then
      targetLocations.map (fun locId =>
        ({ rollout_id := newId, location_id := locId, status := .pending,
           started_at := none, completed_at := none,
           error_message := none } : RolloutExecution))
    else []
  ({ rollouts := store.rollouts ++ [r],
     executions := store.executions ++ executions }, r)

/-- `startRollout`: `update({status: in_progress, started_at, updated_at})
.eq(id).eq(status, pending).select().single()` — only a `pending` rollout
row matches; zero matching rows leaves the table unchanged and the
`.single()` call raises. -/
def startRollout (store : RolloutStore) (rolloutId : String) (now : Nat) :
    Except String (RolloutStore × Rollout) :=
  let matched := store.rollouts.filter
    (fun r => decide (r.id = rolloutId ∧ r.status = .pending))
  match matched with
  | [r] =>
    let r' := { r with
      status := .in_progress
      started_at := some now
      updated_at := some now }
    .ok ({ store with
      rollouts := store.rollouts.map (fun x =>
        if x.id = rolloutId ∧ x.status = .pending then r' else x) }, r')
  | _ => .error "JSON object requested, multiple (or no) rows returned"

/-- `checkRolloutCompletion`: reads the rollout's executions; when all are
terminal, writes `failed` if any execution failed else `completed`, with
`completed_at`/`updated_at`, onto the rollout row; otherwise leaves the
store untouched. (The JS `if (!executions) return` guard covers a select
error and has no counterpart on the modelled success path.) -/
def checkRolloutCompletion (store : RolloutStore) (rolloutId : String) (now : Nat) :
    RolloutStore :=
  let executions := store.executions.filter (fun e => decide (e.rollout_id = rolloutId))
  let allComplete := executions.all (fun e => e.status == .completed || e.status == .failed)
  if allComplete then
    let hasFailure := executions.any (fun e => e.status == .failed)
    let finalStatus := if hasFailure then RolloutStatus.failed else RolloutStatus.completed
    { store with rollouts := store.rollouts.map (fun r =>
        if r.id = rolloutId then
          { r with
            status := finalStatus
            completed_at := some now
            updated_at := some now }
        else r) }
  else store

/-- `updateExecutionStatus`: updates the single execution row keyed by
(rollout, location) — `in_progress` stamps `started_at`,
`completed`/`failed` stamp `completed_at`, `error_message` is always
written — then re-runs `checkRolloutCompletion`. -/
def updateExecutionStatus (store : RolloutStore) (rolloutId locationId : String)
    (status : ExecStatus) (errorMessage : Option String) (now : Nat) :
    Except String (RolloutStore × RolloutExecution) :=
  let applyUpdates : RolloutExecution → RolloutExecution := fun e =>
    { e with
      status := status
      error_message := errorMessage
      started_at := if status = .in_progress then some now else e.started_at
      completed_at := if status = .completed ∨ status = .failed then some now
        else e.completed_at }
  let matched := store.executions.filter
    (fun e => decide (e.rollout_id = rolloutId ∧ e.location_id = locationId))
  match matched with
  | [e] =>
    let store' := { store with
      executions := store.executions.map (fun x =>
        if x.rollout_id = rolloutId ∧ x.location_id = locationId then
          applyUpdates x else x) }
    .ok (checkRolloutCompletion store' rolloutId now, applyUpdates e)
  | _ => .error "JSON object requested, multiple (or no) rows returned"

/-- `getDueScheduledRollouts`: all rollouts with `status = scheduled` and
`scheduled_at <= now` (a SQL `lte` against a NULL `scheduled_at` matches
nothing). -/
def getDueScheduledRollouts (store : RolloutStore) (now : Nat) : List Rollout :=
  store.rollouts.filter (fun r =>
    decide (r.status = .scheduled) &&
      match r.scheduled_at with
      | some t => decide (t ≤ now)
      | none => false)

/-! ## Event mirror (src/netlify/functions/mosm-events.js) -/

/-- An entry of a POST /events batch; a missing field is `none`, and the
JS falsiness checks additionally treat the empty string as missing. -/
structure IncomingEvent where
  event_type : Option String
  source_service : Option String
  location_id : Option String
  organization_id : Option String
  actor_id : Option String
  resource_type : Option String
  resource_id : Option String
  payload : Option String
  timestamp : Option String
  deriving Repr, DecidableEq

/-- JS truthiness of an optional string field (`!e.field` is true exactly
when the field is absent or the empty string). -/
def present : Option String → Bool
  | some s => !s.isEmpty
  | none => false

/-- `validServices` of the events endpoint. -/
def validSourceServices : List String :=
  ["modos-menus", "pos-lite", "kds", "mosm-cloud"]

/-- A per-item validation error `{index, error}`. -/
structure ItemError where
  index : Nat
  error : String
  deriving Repr, DecidableEq

/-- A row as inserted into `event_log` (the defaulted `payload` object and
`timestamp` are opaque and omitted). -/
structure NormalizedEvent where
  event_type : String
  source_service : String
  location_id : String
  organization_id : Option String
  actor_id : Option String
  resource_type : Option String
  resource_id : Option String
  deriving Repr, DecidableEq

/-- The `e.field || null` defaulting used when building the row to insert:
a JS-falsy value (absent or empty) becomes null. -/
def orNull : Option String → Option String
  | some s => if s.isEmpty then none else some s
  | none => none

/-- The insert row built for a valid entry. -/
def normalizeEvent (e : IncomingEvent) : NormalizedEvent :=
  { event_type := e.event_type.getD ""
    source_service := e.source_service.getD ""
    location_id := e.location_id.getD ""
    organization_id := orNull e.organization_id
    actor_id := orNull e.actor_id
    resource_type := orNull e.resource_type
    resource_id := orNull e.resource_id }

/-- An entry passes validation when `event_type`, `source_service` and
`location_id` are all present and `source_service` is a recognized
service. -/
def isValidEvent (e : IncomingEvent) : Bool :=
  (present e.event_type && present e.source_service && present e.location_id) &&
    validSourceServices.contains (e.source_service.getD "")

/-- The validation loop of POST /events: walks the batch with its index,
collecting `validEvents` and per-item `errors` in batch order. -/
def validateEvents : Nat → List IncomingEvent → List NormalizedEvent × List ItemError
  | _, [] => ([], [])
  | i, e :: rest =>
    let r := validateEvents (i + 1) rest
    if !present e.event_type || !present e.source_service || !present e.location_id then
      (r.1, ⟨i, "Missing required fields: event_type, source_service, location_id"⟩ :: r.2)
    else if !validSourceServices.contains (e.source_service.getD "") then
      (r.1, ⟨i,
        "Invalid source_service. Must be one of: modos-menus, pos-lite, kds, mosm-cloud"⟩
        :: r.2)
    else
      (normalizeEvent e :: r.1, r.2)

/-- The response of the POST /events branch: 400 with the per-item errors
when nothing validated, else 201 with the number of stored rows and the
per-item errors when any. -/
inductive EventsResponse where
  | badRequest (errors : List ItemError)
  | created (logged : Nat) (errors : Option (List ItemError))
  deriving Repr, DecidableEq

/-- The POST /events branch after service-key auth and body parsing:
validate the batch, reject wholesale only when no entry validated, else
insert every valid entry into `event_log` (the error-free insert path). -/
def postEvents (eventLog : List NormalizedEvent) (events : List IncomingEvent) :
    EventsResponse × List NormalizedEvent :=
  let r := validateEvents 0 events
  if r.1.length = 0 then
    (.badRequest r.2, eventLog)
  else
    (.created r.1.length (if r.2.length > 0 then some r.2 else none),
     eventLog ++ r.1)

end Mosm

namespace Mosm

/-! ## Claims C2 and C3 -/

/-- C2 (gate ordering determinism): `enforceLocationPairing` returns the
code of the first failing check in the fixed order billing →
location-active → setup-fee → device-limit (and `none` exactly when
allowed); in particular, whenever the account's billing is not active the
returned code is `BILLING_INACTIVE`, whatever the location's `active`,
`setup_fee_paid` and device-count state. -/
theorem gate_ordering_first_failing_check
    (account : Account) (location : Location) (currentDeviceCount : Nat)
    (logs : List EnforcementLog) :
    ((enforceLocationPairing account location currentDeviceCount logs).1.code =
      firstFailingCheckCode account location currentDeviceCount) ∧
    ((enforceLocationPairing account location currentDeviceCount logs).1.allowed =
      (firstFailingCheckCode account location currentDeviceCount).isNone) ∧
    (isBillingActive account.billing_status = false →
      (enforceLocationPairing account location currentDeviceCount logs).1.code =
        some "BILLING_INACTIVE") := by
  refine ⟨?_, ?_, ?_⟩ <;>
    · simp only [enforceLocationPairing, firstFailingCheckCode]
      by_cases hb : isBillingActive account.billing_status <;>
        by_cases ha : location.active <;>
          by_cases hf : location.setup_fee_paid <;>
            by_cases hd : currentDeviceCount ≥ location.device_limit <;>
              simp [hb, ha, hf, hd]

/-- Witness for C2: an unpaid account at an inactive, setup-fee-unpaid,
over-capacity location is rejected with `BILLING_INACTIVE`. -/
theorem gate_ordering_first_failing_check_witness :
    (enforceLocationPairing
      ⟨some "org-1", .limited 3, "unpaid", 0⟩
      ⟨"loc-1", "org-1", "Main", "starter", 3, false, false⟩ 3 []).1.code =
      some "BILLING_INACTIVE" :=
  (gate_ordering_first_failing_check
    ⟨some "org-1", .limited 3, "unpaid", 0⟩
    ⟨"loc-1", "org-1", "Main", "starter", 3, false, false⟩ 3 []).2.2 (by decide)

/-- C3 (audit completeness): every invocation of `enforceLocationPairing`,
allowed or blocked, appends exactly one enforcement-log entry: the log
grows by exactly one. -/
theorem enforce_location_pairing_appends_one_log
    (account : Account) (location : Location) (currentDeviceCount : Nat)
    (logs : List EnforcementLog) :
    ((enforceLocationPairing account location currentDeviceCount logs).2).length =
      logs.length + 1 := by
  simp only [enforceLocationPairing]
  by_cases hb : isBillingActive account.billing_status <;>
    by_cases ha : location.active <;>
      by_cases hf : location.setup_fee_paid <;>
        by_cases hd : currentDeviceCount ≥ location.device_limit <;>
          simp [hb, ha, hf, hd, logEnforcementEvent]

/-! ## Claim C1 -/

/-- C1 (no-bricking invariant): `handleHeartbeat` acknowledges every
heartbeat for every account-info argument, and two runs that differ only
in the account's `billing_status` produce identical operational output
(`acknowledged` and `commands`); billing status never conditions a paired
device's operation. -/
theorem heartbeat_no_bricking
    (payload : HeartbeatPayload) (accountInfo : Option AccountInfo)
    (nowIso : String) (now : Nat) (seen : List (String × Nat))
    (info : AccountInfo) (bs1 bs2 : String) :
    (handleHeartbeat payload accountInfo nowIso now seen).1.acknowledged = true ∧
    ((handleHeartbeat payload (some { info with billing_status := bs1 })
        nowIso now seen).1.acknowledged =
      (handleHeartbeat payload (some { info with billing_status := bs2 })
        nowIso now seen).1.acknowledged) ∧
    ((handleHeartbeat payload (some { info with billing_status := bs1 })
        nowIso now seen).1.commands =
      (handleHeartbeat payload (some { info with billing_status := bs2 })
        nowIso now seen).1.commands) := by
  refine ⟨rfl, rfl, rfl⟩

/-! ## Claim C9 -/

/-- C9 counterexample: the location gate's device-limit rejection carries
the code `DEVICE_LIMIT_REACHED`, which is not in the claimed code set
`{BILLING_INACTIVE, DEVICE_LIMIT_EXCEEDED, LOCATION_INACTIVE, SETUP_FEE_NOT_PAID}`:
a paid account at an active, setup-fee-paid location with 3 of 3 device
slots used is rejected with `DEVICE_LIMIT_REACHED`. -/
theorem pairing_gate_code_counterexample :
    ((enforceLocationPairing ⟨some "org-1", .limited 25, "paid", 3⟩
        ⟨"loc-1", "org-1", "Main", "starter", 3, true, true⟩ 3 []).1.allowed = false) ∧
    ((enforceLocationPairing ⟨some "org-1", .limited 25, "paid", 3⟩
        ⟨"loc-1", "org-1", "Main", "starter", 3, true, true⟩ 3 []).1.code =
      some "DEVICE_LIMIT_REACHED") ∧
    ("DEVICE_LIMIT_REACHED" ∉
      ["BILLING_INACTIVE", "DEVICE_LIMIT_EXCEEDED", "LOCATION_INACTIVE",
       "SETUP_FEE_NOT_PAID"]) := by
  refine ⟨rfl, rfl, by decide⟩

/-- C9 amended: every rejection of the location gate
(`enforceLocationPairing`) carries a code from `{BILLING_INACTIVE,
LOCATION_INACTIVE, SETUP_FEE_NOT_PAID, DEVICE_LIMIT_REACHED}` — its
device-limit code is `DEVICE_LIMIT_REACHED` — while every rejection of the
account-level pairing endpoint (`pairDevice`) carries a code from
`{BILLING_INACTIVE, DEVICE_LIMIT_EXCEEDED}`, its device-limit rejection
being `DEVICE_LIMIT_EXCEEDED`; all rejections are structured results, not
thrown failures. -/
theorem pairing_gate_codes
    (account : Account) (location : Location) (currentDeviceCount : Nat)
    (logs : List EnforcementLog) (req : DevicePairingRequest) (nowIso : String) :
    (∀ c, (enforceLocationPairing account location currentDeviceCount logs).1.code =
        some c →
      c ∈ ["BILLING_INACTIVE", "LOCATION_INACTIVE", "SETUP_FEE_NOT_PAID",
           "DEVICE_LIMIT_REACHED"]) ∧
    (isBillingActive account.billing_status = true → location.active = true →
      location.setup_fee_paid = true → currentDeviceCount ≥ location.device_limit →
      (enforceLocationPairing account location currentDeviceCount logs).1.code =
        some "DEVICE_LIMIT_REACHED") ∧
    (∀ c, (pairDevice req account nowIso logs).1.code? = some c →
      c ∈ ["BILLING_INACTIVE", "DEVICE_LIMIT_EXCEEDED"]) ∧
    (∀ m, isBillingActive account.billing_status = true →
      account.max_devices = .limited m → account.device_count + 1 > m →
      (pairDevice req account nowIso logs).1.code? = some "DEVICE_LIMIT_EXCEEDED") := by
  refine ⟨?_, ?_, ?_, ?_⟩
  · intro c hc
    simp only [enforceLocationPairing] at hc
    by_cases hb : isBillingActive account.billing_status <;>
      by_cases ha : location.active <;>
        by_cases hf : location.setup_fee_paid <;>
          by_cases hd : currentDeviceCount ≥ location.device_limit <;>
            simp_all
  · intro hb ha hf hd
    simp [enforceLocationPairing, hb, ha, hf, hd]
  · intro c hc
    simp only [pairDevice] at hc
    by_cases hb : isBillingActive account.billing_status
    · rcases hm : account.max_devices with m | _
      · by_cases hd : account.device_count + 1 ≤ m <;>
          simp_all [enforceBillingForPairing, enforceDeviceLimit,
            DevicePairingResponse.code?]
      · simp_all [enforceBillingForPairing, enforceDeviceLimit,
          DevicePairingResponse.code?]
    · simp_all [enforceBillingForPairing, DevicePairingResponse.code?]
  · intro m hb hmax hgt
    simp [pairDevice, enforceBillingForPairing, enforceDeviceLimit, hb, hmax,
      DevicePairingResponse.code?, Nat.not_le.mpr hgt]

/-- Witness for C9 amended: a paid account already at its 3-device plan
limit is rejected by `pairDevice` with `DEVICE_LIMIT_EXCEEDED`, and the
location gate at capacity answers `DEVICE_LIMIT_REACHED`. -/
theorem pairing_gate_codes_witness :
    (pairDevice ⟨"dev-1", "org-1", none, none⟩
      ⟨some "org-1", .limited 3, "paid", 3⟩ "t0" []).1.code? =
      some "DEVICE_LIMIT_EXCEEDED" :=
  (pairing_gate_codes ⟨some "org-1", .limited 3, "paid", 3⟩
    ⟨"loc-1", "org-1", "Main", "starter", 3, true, true⟩ 3 []
    ⟨"dev-1", "org-1", none, none⟩ "t0").2.2.2 3 (by decide) rfl (by decide)

/-! ## Claim C4 -/

/-- C4 (billing status resolver): `mapSubscriptionStatus` maps `active` →
`paid`, `trialing` → `trialing`, `past_due` → `past_due`, and
`canceled`/`unpaid`/`incomplete`/`incomplete_expired`/`paused` → `unpaid`;
every state outside the three specially-mapped ones resolves to `unpaid`
(fail-closed), and the function is pure, so re-applying it to the same
input yields the same output. -/
theorem map_subscription_status_contract :
    mapSubscriptionStatus "active" = .paid ∧
    mapSubscriptionStatus "trialing" = .trialing ∧
    mapSubscriptionStatus "past_due" = .past_due ∧
    mapSubscriptionStatus "canceled" = .unpaid ∧
    mapSubscriptionStatus "unpaid" = .unpaid ∧
    mapSubscriptionStatus "incomplete" = .unpaid ∧
    mapSubscriptionStatus "incomplete_expired" = .unpaid ∧
    mapSubscriptionStatus "paused" = .unpaid ∧
    (∀ s : String, s ∉ ["active", "trialing", "past_due"] →
      mapSubscriptionStatus s = .unpaid) ∧
    (∀ s : String, mapSubscriptionStatus s = mapSubscriptionStatus s) := by
  refine ⟨rfl, rfl, rfl, rfl, rfl, rfl, rfl, rfl, ?_, fun s => rfl⟩
  intro s hs
  simp only [mapSubscriptionStatus]
  split <;> simp_all

/-- Witness for C4: an unrecognized provider state resolves to `unpaid`. -/
theorem map_subscription_status_contract_witness :
    mapSubscriptionStatus "some_future_state" = .unpaid :=
  map_subscription_status_contract.2.2.2.2.2.2.2.2.1 "some_future_state" (by decide)

/-! ## Claim C5 -/

/-- Bumping a counter adds one exactly to the bumped status. -/
theorem bumpStatusCount_count (c : HealthCounts) (t s : ServiceStatus) :
    (bumpStatusCount c t).count s = c.count s + (if t = s then 1 else 0) := by
  cases t <;> cases s <;> simp [bumpStatusCount, HealthCounts.count]

/-- The health-summary fold counts entries by effective status. -/
theorem foldl_bump_count (now : Int) (l : List RegistryEntry) (c : HealthCounts)
    (s : ServiceStatus) :
    (l.foldl (fun c e => bumpStatusCount c (effectiveStatus now e)) c).count s =
      c.count s + l.countP (fun e => effectiveStatus now e == s) := by
  induction l generalizing c with
  | nil => simp
  | cons e l ih =>
    simp only [List.foldl_cons, List.countP_cons, ih, bumpStatusCount_count]
    by_cases h : effectiveStatus now e = s
    case pos => simp [h]; omega
    case neg => simp [h]

/-- C5 (staleness recomputation): an entry whose heartbeat is older than
the 2-minute threshold has effective status `offline` regardless of its
stored status, a fresh entry keeps its stored status, `getHealthSummary`
counts every entry under its effective status, and its `offline` counter
is exactly the number of entries that are stale or stored as offline. -/
theorem health_summary_staleness (now : Int) (services : List RegistryEntry) :
    (∀ e : RegistryEntry, now - e.last_heartbeat > HEARTBEAT_TIMEOUT_MS →
      effectiveStatus now e = .offline) ∧
    (∀ e : RegistryEntry, ¬now - e.last_heartbeat > HEARTBEAT_TIMEOUT_MS →
      effectiveStatus now e = e.status) ∧
    (∀ s : ServiceStatus, (getHealthSummary now services).count s =
      services.countP (fun e => effectiveStatus now e == s)) ∧
    ((getHealthSummary now services).offline =
      services.countP (fun e =>
        decide (now - e.last_heartbeat > HEARTBEAT_TIMEOUT_MS) || (e.status == .offline))) := by
  refine ⟨?_, ?_, ?_, ?_⟩
  · intro e he
    simp [effectiveStatus, he]
  · intro e he
    simp [effectiveStatus, he]
  · intro s
    have h := foldl_bump_count now services ⟨services.length, 0, 0, 0, 0⟩ s
    have h0 : (⟨services.length, 0, 0, 0, 0⟩ : HealthCounts).count s = 0 := by
      cases s <;> rfl
    simpa [getHealthSummary, h0] using h
  · have h := foldl_bump_count now services ⟨services.length, 0, 0, 0, 0⟩ .offline
    simp only [getHealthSummary]
    have hoff : (services.foldl (fun c e => bumpStatusCount c (effectiveStatus now e))
        ⟨services.length, 0, 0, 0, 0⟩).offline =
        (services.foldl (fun c e => bumpStatusCount c (effectiveStatus now e))
        ⟨services.length, 0, 0, 0, 0⟩).count .offline := rfl
    rw [hoff, h]
    simp only [HealthCounts.count]
    rw [Nat.zero_add]
    apply List.countP_congr
    intro e _
    simp only [effectiveStatus]
    by_cases hst : now - e.last_heartbeat > HEARTBEAT_TIMEOUT_MS <;> simp [hst]

/-- Witness for C5: at `now = 180000` an entry stored `online` but last
heard from at time 0 (3 minutes stale) is effectively `offline`, and a
summary over just that entry counts it under `offline`. -/
theorem health_summary_staleness_witness :
    effectiveStatus 180000 ⟨"modos-menus", "loc-1", .online, 0, none⟩ =
      ServiceStatus.offline ∧
    (getHealthSummary 180000 [⟨"modos-menus", "loc-1", .online, 0, none⟩]).offline = 1 :=
  ⟨(health_summary_staleness 180000 []).1
    ⟨"modos-menus", "loc-1", .online, 0, none⟩ (by decide), rfl⟩

/-! ## Claim C6 -/

/-- `checkRolloutCompletion` leaves the executions table alone; when every
execution of the rollout is terminal it writes the aggregate status
(`failed` if any execution failed, else `completed`) and the completion
timestamps onto the rollout row, and otherwise leaves the rollouts table
unchanged. -/
theorem checkRolloutCompletion_rollouts (store : RolloutStore) (rolloutId : String)
    (now : Nat) :
    ((checkRolloutCompletion store rolloutId now).executions = store.executions) ∧
    (((store.executions.filter (fun e => decide (e.rollout_id = rolloutId))).all
        (fun e => e.status.isTerminal) = true) →
      (checkRolloutCompletion store rolloutId now).rollouts =
        store.rollouts.map (fun r => if r.id = rolloutId then
          { r with
            status := if (store.executions.filter
                (fun e => decide (e.rollout_id = rolloutId))).any
                (fun e => e.status == .failed)
              then RolloutStatus.failed else RolloutStatus.completed,
            completed_at := some now, updated_at := some now } else r)) ∧
    (((store.executions.filter (fun e => decide (e.rollout_id = rolloutId))).all
        (fun e => e.status.isTerminal) = false) →
      (checkRolloutCompletion store rolloutId now).rollouts = store.rollouts) := by
  simp only [checkRolloutCompletion, ExecStatus.isTerminal]
  cases hall : (store.executions.filter (fun e => decide (e.rollout_id = rolloutId))).all
      (fun e => e.status == ExecStatus.completed || e.status == ExecStatus.failed) <;>
    simp [hall]

/-- C6 (rollout aggregation): after a successful `updateExecutionStatus`,
if every execution of the rollout is terminal the rollouts table carries
the aggregate status on the rollout row — `failed` when any execution
failed, else `completed` — together with `completed_at`; if any execution
is still non-terminal, the rollouts table is unchanged. -/
theorem rollout_aggregation
    (store : RolloutStore) (rolloutId locationId : String) (status : ExecStatus)
    (errorMessage : Option String) (now : Nat) (store' : RolloutStore)
    (e' : RolloutExecution)
    (h : updateExecutionStatus store rolloutId locationId status errorMessage now =
      Except.ok (store', e')) :
    (((store'.executions.filter (fun e => decide (e.rollout_id = rolloutId))).all
        (fun e => e.status.isTerminal) = true) →
      store'.rollouts = store.rollouts.map (fun r => if r.id = rolloutId then
        { r with
          status := if (store'.executions.filter
              (fun e => decide (e.rollout_id = rolloutId))).any
              (fun e => e.status == .failed)
            then RolloutStatus.failed else RolloutStatus.completed,
          completed_at := some now, updated_at := some now } else r)) ∧
    (((store'.executions.filter (fun e => decide (e.rollout_id = rolloutId))).all
        (fun e => e.status.isTerminal) = false) →
      store'.rollouts = store.rollouts) := by
  simp only [updateExecutionStatus] at h
  split at h
  · rw [Except.ok.injEq, Prod.mk.injEq] at h
    obtain ⟨h1, h2⟩ := h
    subst h1
    obtain ⟨hexec, hterm, hnon⟩ := checkRolloutCompletion_rollouts
      { store with
        executions := store.executions.map
          (fun x => if x.rollout_id = rolloutId ∧ x.location_id = locationId then
            { x with
              status := status
              error_message := errorMessage
              started_at := if status = .in_progress then some now else x.started_at
              completed_at := if status = .completed ∨ status = .failed then some now
                else x.completed_at }
          else x) } rolloutId now
    constructor
    · intro hall
      rw [hexec] at hall
      rw [hexec]
      exact hterm hall
    · intro hfalse
      rw [hexec] at hfalse
      exact hnon hfalse
  · exact absurd h (by simp)

/-- An in-progress demo rollout across locations L1 and L2, with L1
already completed and L2 still running. -/
def demoRollout : Rollout :=
  { id := "r1", name := "Menu v2", organization_id := "org-1",
    rollout_type := "menu_activation", target_locations := ["L1", "L2"],
    payload := "menu-2", status := .in_progress, scheduled_at := none,
    started_at := some 10, completed_at := none, updated_at := some 10 }

/-- L1 execution of the demo rollout, already completed. -/
def demoExecL1 : RolloutExecution :=
  { rollout_id := "r1", location_id := "L1", status := .completed,
    started_at := some 20, completed_at := some 30, error_message := none }

/-- L2 execution of the demo rollout, still in progress. -/
def demoExecL2 : RolloutExecution :=
  { rollout_id := "r1", location_id := "L2", status := .in_progress,
    started_at := some 20, completed_at := none, error_message := none }

/-- The demo store holding the rollout and its two executions. -/
def demoRolloutStore : RolloutStore := ⟨[demoRollout], [demoExecL1, demoExecL2]⟩

/-- Witness for C6: failing L2 at time 50 makes both executions terminal
with one failure, so the rollout row aggregates to `failed` with
`completed_at = 50`. -/
theorem rollout_aggregation_witness :
    (updateExecutionStatus demoRolloutStore "r1" "L2" .failed (some "timeout") 50 =
      Except.ok
        (⟨[{ demoRollout with
             status := .failed
             completed_at := some 50
             updated_at := some 50 }],
          [demoExecL1,
           { demoExecL2 with
             status := .failed
             completed_at := some 50
             error_message := some "timeout" }]⟩,
         { demoExecL2 with
           status := .failed
           completed_at := some 50
           error_message := some "timeout" })) ∧
    ([{ demoRollout with
        status := RolloutStatus.failed
        completed_at := some 50
        updated_at := some 50 }] : List Rollout) =
      demoRolloutStore.rollouts.map (fun r => if r.id = "r1" then
        { r with
          status := RolloutStatus.failed
          completed_at := some 50
          updated_at := some 50 }
      else r) := by
  have h0 : updateExecutionStatus demoRolloutStore "r1" "L2" .failed (some "timeout") 50 =
      Except.ok
        (⟨[{ demoRollout with
             status := .failed
             completed_at := some 50
             updated_at := some 50 }],
          [demoExecL1,
           { demoExecL2 with
             status := .failed
             completed_at := some 50
             error_message := some "timeout" }]⟩,
         { demoExecL2 with
           status := .failed
           completed_at := some 50
           error_message := some "timeout" }) := by rfl
  refine ⟨h0, ?_⟩
  have h := (rollout_aggregation demoRolloutStore "r1" "L2" .failed (some "timeout") 50
    _ _ h0).1 (by decide)
  simpa using h

/-! ## Claim C7 -/

/-- A due scheduled demo rollout (status `scheduled`, due at time 5). -/
def schedRollout : Rollout :=
  { id := "r2", name := "Scheduled menu", organization_id := "org-1",
    rollout_type := "menu_activation", target_locations := ["L1"],
    payload := "menu-3", status := .scheduled, scheduled_at := some 5,
    started_at := none, completed_at := none, updated_at := none }

/-- A store containing only the scheduled demo rollout and its pending
execution. -/
def schedStore : RolloutStore :=
  ⟨[schedRollout],
   [{ rollout_id := "r2", location_id := "L1", status := .pending,
      started_at := none, completed_at := none, error_message := none }]⟩

/-- C7 (code bug): a `scheduled` rollout due at `now = 10` is returned by
`getDueScheduledRollouts`, yet `startRollout` — the scheduler's only way
to run it — filters on `status = pending`, matches no row, and raises:
the rollout stays `scheduled` and never becomes `in_progress`. -/
theorem scheduled_rollout_unstartable :
    getDueScheduledRollouts schedStore 10 = [schedRollout] ∧
    (startRollout schedStore "r2" 10).toOption = none ∧
    schedStore.rollouts.filter
      (fun r => decide (r.id = "r2" ∧ r.status = .pending)) = [] ∧
    schedRollout.status = RolloutStatus.scheduled := by
  refine ⟨by decide, by decide, by decide, rfl⟩

/-! ## Claim C8 -/

/-- A store with no rollouts and no executions. -/
def emptyRolloutStore : RolloutStore := ⟨[], []⟩

/-- C8 counterexample: creating a rollout with an empty target-location
list is not special-cased — it persists the rollout (one row inserted)
in the non-terminal `pending` state with zero execution records, instead
of marking it completed or rejecting the creation. -/
theorem zero_target_rollout_counterexample :
    ((createRollout emptyRolloutStore "Empty" "org-1" "menu_activation" [] "p"
        none "r0").2.status = RolloutStatus.pending) ∧
    ((createRollout emptyRolloutStore "Empty" "org-1" "menu_activation" [] "p"
        none "r0").1.executions = []) ∧
    ((createRollout emptyRolloutStore "Empty" "org-1" "menu_activation" [] "p"
        none "r0").1.rollouts.length = 1) ∧
    (RolloutStatus.pending ≠ RolloutStatus.completed ∧
     RolloutStatus.pending ≠ RolloutStatus.failed ∧
     RolloutStatus.pending ≠ RolloutStatus.rolled_back) := by
  refine ⟨rfl, rfl, rfl, by decide⟩

/-- C8 amended: creating a rollout with an empty `target_locations` set is
permitted and not special-cased: the rollout row is inserted with status
`scheduled` or `pending` (never a terminal status) and no execution
records are created for it. -/
theorem zero_target_rollout_amended
    (store : RolloutStore) (name organizationId rolloutType payload : String)
    (scheduledAt : Option Nat) (newId : String)
    (hfresh : store.executions.filter (fun e => decide (e.rollout_id = newId)) = []) :
    ((createRollout store name organizationId rolloutType [] payload scheduledAt
        newId).2.status =
      if scheduledAt.isSome then RolloutStatus.scheduled else RolloutStatus.pending) ∧
    ((createRollout store name organizationId rolloutType [] payload scheduledAt
        newId).1.executions.filter (fun e => decide (e.rollout_id = newId)) = []) ∧
    ((createRollout store name organizationId rolloutType [] payload scheduledAt
        newId).2.status ≠ RolloutStatus.completed) ∧
    ((createRollout store name organizationId rolloutType [] payload scheduledAt
        newId).2.status ≠ RolloutStatus.failed) ∧
    ((createRollout store name organizationId rolloutType [] payload scheduledAt
        newId).1.rollouts = store.rollouts ++
      [(createRollout store name organizationId rolloutType [] payload scheduledAt
        newId).2]) := by
  refine ⟨rfl, ?_, ?_, ?_, rfl⟩
  · simpa [createRollout] using hfresh
  · cases scheduledAt <;> simp [createRollout]
  · cases scheduledAt <;> simp [createRollout]

/-- Witness for C8 amended: in the empty store a zero-target rollout is
created `pending` with no execution rows. -/
theorem zero_target_rollout_amended_witness :
    ((createRollout emptyRolloutStore "Zero" "org-1" "config_update" [] "p"
        none "r9").2.status = RolloutStatus.pending) ∧
    ((createRollout emptyRolloutStore "Zero" "org-1" "config_update" [] "p"
        none "r9").1.executions.filter (fun e => decide (e.rollout_id = "r9")) = []) :=
  ⟨(zero_target_rollout_amended emptyRolloutStore "Zero" "org-1" "config_update" "p"
      none "r9" rfl).1,
   (zero_target_rollout_amended emptyRolloutStore "Zero" "org-1" "config_update" "p"
      none "r9" rfl).2.1⟩

/-! ## Claim C10 -/

/-- Every invalid batch entry contributes a per-item error carrying its
batch index (offset by the running index `k`). -/
theorem validateEvents_error_mem (k : Nat) (es : List IncomingEvent) :
    ∀ i (h : i < es.length), isValidEvent (es.get ⟨i, h⟩) = false →
      ∃ err ∈ (validateEvents k es).2, err.index = k + i := by
  induction es generalizing k with
  | nil => intro i h; exact absurd h (by simp)
  | cons e rest ih =>
    intro i h hv
    cases i with
    | zero =>
      simp only [List.get] at hv
      by_cases hc1 : (!present e.event_type || !present e.source_service ||
          !present e.location_id) = true
      · refine ⟨⟨k, "Missing required fields: event_type, source_service, location_id"⟩,
          ?_, rfl⟩
        simp only [validateEvents]
        rw [if_pos hc1]
        exact List.mem_cons_self _ _
      · by_cases hc2 : (!validSourceServices.contains (e.source_service.getD "")) = true
        · refine ⟨⟨k,
            "Invalid source_service. Must be one of: modos-menus, pos-lite, kds, mosm-cloud"⟩,
            ?_, rfl⟩
          simp only [validateEvents]
          rw [if_neg hc1, if_pos hc2]
          exact List.mem_cons_self _ _
        · exfalso
          have hp : (present e.event_type && present e.source_service &&
              present e.location_id) = true := by
            revert hc1
            cases present e.event_type <;> cases present e.source_service <;>
              cases present e.location_id <;> simp
          have hcont : validSourceServices.contains (e.source_service.getD "") = true := by
            revert hc2
            cases validSourceServices.contains (e.source_service.getD "") <;> simp
          have hvt : isValidEvent e = true := by
            simp only [isValidEvent]
            rw [hp, hcont]
            rfl
          rw [hvt] at hv
          simp at hv
    | succ i =>
      have h' : i < rest.length := by simpa using h
      have hv' : isValidEvent (rest.get ⟨i, h'⟩) = false := by simpa using hv
      obtain ⟨err, hmem, hidx⟩ := ih (k + 1) i h' hv'
      refine ⟨err, ?_, by omega⟩
      simp only [validateEvents]
      by_cases hc1 : (!present e.event_type || !present e.source_service ||
          !present e.location_id) = true
      · rw [if_pos hc1]
        exact List.mem_cons_of_mem _ hmem
      · rw [if_neg hc1]
        by_cases hc2 : (!validSourceServices.contains (e.source_service.getD "")) = true
        · rw [if_pos hc2]
          exact List.mem_cons_of_mem _ hmem
        · rw [if_neg hc2]
          exact hmem

/-- Every valid batch entry's normalized row is collected by the
validation loop. -/
theorem validateEvents_valid_mem (k : Nat) (es : List IncomingEvent) :
    ∀ i (h : i < es.length), isValidEvent (es.get ⟨i, h⟩) = true →
      normalizeEvent (es.get ⟨i, h⟩) ∈ (validateEvents k es).1 := by
  induction es generalizing k with
  | nil => intro i h; exact absurd h (by simp)
  | cons e rest ih =>
    intro i h hv
    cases i with
    | zero =>
      simp only [List.get] at hv ⊢
      simp only [isValidEvent, Bool.and_eq_true] at hv
      have hc1 : ¬(!present e.event_type || !present e.source_service ||
          !present e.location_id) = true := by
        rw [hv.1.1.1, hv.1.1.2, hv.1.2]
        decide
      have hc2 : ¬(!validSourceServices.contains (e.source_service.getD "")) = true := by
        rw [hv.2]
        decide
      simp only [validateEvents]
      rw [if_neg hc1, if_neg hc2]
      exact List.mem_cons_self _ _
    | succ i =>
      have h' : i < rest.length := by simpa using h
      have hv' : isValidEvent (rest.get ⟨i, h'⟩) = true := by simpa using hv
      have hmem := ih (k + 1) i h' hv'
      have hget : (e :: rest).get ⟨i + 1, h⟩ = rest.get ⟨i, h'⟩ := rfl
      rw [hget]
      simp only [validateEvents]
      by_cases hc1 : (!present e.event_type || !present e.source_service ||
          !present e.location_id) = true
      · rw [if_pos hc1]
        exact hmem
      · rw [if_neg hc1]
        by_cases hc2 : (!validSourceServices.contains (e.source_service.getD "")) = true
        · rw [if_pos hc2]
          exact hmem
        · rw [if_neg hc2]
          exact List.mem_cons_of_mem _ hmem

/-- C10 (event-mirror per-item validation): in every POST /events batch an
entry missing `event_type`/`source_service`/`location_id` or with an
unrecognized `source_service` yields a per-item error carrying that
entry's index, while every valid entry of the same batch is still stored
in `event_log`, and the batch as a whole is accepted (201 with the count
of stored rows) whenever at least one entry is valid. -/
theorem event_batch_per_item_validation
    (eventLog : List NormalizedEvent) (events : List IncomingEvent)
    (i : Nat) (h : i < events.length) :
    (isValidEvent (events.get ⟨i, h⟩) = false →
      ∃ err ∈ (validateEvents 0 events).2, err.index = i) ∧
    (isValidEvent (events.get ⟨i, h⟩) = true →
      normalizeEvent (events.get ⟨i, h⟩) ∈ (postEvents eventLog events).2) ∧
    (isValidEvent (events.get ⟨i, h⟩) = true →
      (postEvents eventLog events).1 =
        .created (validateEvents 0 events).1.length
          (if (validateEvents 0 events).2.length > 0
            then some (validateEvents 0 events).2 else none)) := by
  have hvalid : isValidEvent (events.get ⟨i, h⟩) = true →
      ¬(validateEvents 0 events).1.length = 0 := by
    intro hv hlen
    have hmem := validateEvents_valid_mem 0 events i h hv
    rw [List.length_eq_zero] at hlen
    rw [hlen] at hmem
    exact absurd hmem (List.not_mem_nil _)
  refine ⟨?_, ?_, ?_⟩
  · intro hv
    simpa using validateEvents_error_mem 0 events i h hv
  · intro hv
    have hmem := validateEvents_valid_mem 0 events i h hv
    simp only [postEvents]
    rw [if_neg (hvalid hv)]
    exact List.mem_append.mpr (Or.inr hmem)
  · intro hv
    simp only [postEvents]
    rw [if_neg (hvalid hv)]

/-- A two-entry demo batch: a valid `pos-lite` event followed by an entry
missing `location_id`. -/
def demoEventBatch : List IncomingEvent :=
  [⟨some "order.created", some "pos-lite", some "L1", some "org-1", none, none,
    none, none, none⟩,
   ⟨some "order.created", some "pos-lite", none, none, none, none, none, none,
    none⟩]

/-- Witness for C10: in the demo batch the invalid second entry yields an
error with index 1 while the valid first entry is stored. -/
theorem event_batch_per_item_validation_witness :
    (∃ err ∈ (validateEvents 0 demoEventBatch).2, err.index = 1) ∧
    normalizeEvent (demoEventBatch.get ⟨0, by decide⟩) ∈
      (postEvents [] demoEventBatch).2 :=
  ⟨(event_batch_per_item_validation [] demoEventBatch 1 (by decide)).1 (by decide),
   (event_batch_per_item_validation [] demoEventBatch 0 (by decide)).2.1 (by decide)⟩

end Mosm
